import Mathlib

/-!
Shallow embedding of the city taxi simulation (src/lab1.py) and proofs
about it.  Pure functions of the Python source become Lean functions;
the mutable Mesa model becomes an explicit `CityState` threaded through
step functions.  Python's two random sources are modelled as explicit
streams of natural numbers: the model's seeded `self.random` lives in
the state (`modelRng`), while the process-global `random` module used at
drop-off (lab1.py line 103) is threaded separately as a `GRng` argument.
A draw takes the head of the stream (0 once the stream is exhausted) and
drops it; `randrange n` / `randint a b` reduce a raw draw modulo the
range size, which keeps every choice a deterministic function of the
stream, which is all the claims need.
-/

namespace CitySim

/-- A grid position, as in Mesa's `MultiGrid` coordinates. -/
abbrev Pos := Nat × Nat

/-- A stream of raw random draws; `draw` takes the head (default 0). -/
abbrev Rng := List Nat

/-- The process-global random stream (Python's `random` module). -/
abbrev GRng := List Nat

/-- Take one raw value from a stream. -/
def draw (r : Rng) : Nat × Rng := (r.headD 0, r.tail)

/-! ### Module-level constants of lab1.py

Python computes these with float division and `round`; at the concrete
module values (`ticks_per_day = 576`, 120 km/h, 1 km per border) every
division is exact, so the Nat arithmetic below produces the same
numbers: 24 ticks per hour, half hour = 12, one hour = 24, three
hours = 72, taxi speed = 5 cells per tick. -/

def moduleTicksPerDay : Nat := 576

def ticksPerHour : Nat := moduleTicksPerDay / 24

def HALF_HOUR_IN_TICKS : Nat := ticksPerHour / 2

def ONE_HOUR_IN_TICKS : Nat := ticksPerHour

def THREE_HOURS_IN_TICKS : Nat := 3 * ticksPerHour

def TAXI_SPEED_KMS_PER_HOUR : Nat := 120

/-- `round(calculate_speed_per_tick(120, 576))` = 120 / 24 = 5. -/
def TAXI_SPEED : Nat := TAXI_SPEED_KMS_PER_HOUR / ticksPerHour

/-! ### Movement (`TaxiAgent.move_toward`, lab1.py lines 47-75) -/

/-- Distance between two naturals, `|a - b|` computed in Nat. -/
def ndist (a b : Nat) : Nat := (a - b) + (b - a)

/-- Manhattan distance, as computed at lab1.py line 55. -/
def manhattan (p t : Pos) : Nat := ndist p.1 t.1 + ndist p.2 t.2

/-- Chebyshev distance (used only in the specification of movement). -/
def cheb (p t : Pos) : Nat := max (ndist p.1 t.1) (ndist p.2 t.2)

/-- One coordinate of one iteration of the `while borders_to_traverse`
loop: step one cell toward the target coordinate. -/
def stepToward (c t : Nat) : Nat :=
  if c < t then c + 1 else if t < c then c - 1 else c

/-- One iteration of the loop body (lab1.py lines 63-75): note that the
Python code advances BOTH axes in the same unit step (two independent
`if`s), i.e. the movement is diagonal-preferring. -/
def unitStep (p t : Pos) : Pos := (stepToward p.1 t.1, stepToward p.2 t.2)

/-- The whole `while` loop: `k` iterations of `unitStep`. -/
def moveLoop : Nat → Pos → Pos → Pos
  | 0, p, _ => p
  | k + 1, p, t => moveLoop k (unitStep p t) t

/-- `TaxiAgent.move_toward`: if the Manhattan distance is strictly below
the speed, jump to the target; otherwise run `speed` loop iterations.
Returns the final position (Python moves the grid agent; only position
changes). -/
def move_toward (p t : Pos) (speed : Nat) : Pos :=
  if manhattan p t < speed then t else moveLoop speed p t

/-! ### Agent records

Python identifies agents by unique string ids (`Taxi-i`, `Resident-i`,
`ExtraTaxi-day-i`) and holds direct object references between them
(`assigned_request`, `destination_host`).  The embedding gives every
agent a globally unique `uid : Nat` (allocated by a counter in the
state, mirroring the uniqueness of the Python names) and replaces the
object references by uids resolved through the schedule.  Residents
additionally carry `ordinal`, the integer `i` parsed out of the name by
`add_request_to_queue` (lab1.py line 215). -/

inductive TState where
  | idle
  | toPickup
  | toDestination
deriving DecidableEq, Repr

inductive RState where
  | idle
  | waiting
  | inTransit
  | visiting
deriving DecidableEq, Repr

structure Taxi where
  uid : Nat
  pos : Pos
  tstate : TState
  assigned : Option Nat
  ridesConducted : Nat
  speed : Nat
deriving DecidableEq, Repr

structure Resident where
  uid : Nat
  ordinal : Nat
  pos : Pos
  rstate : RState
  requestTime : Option Nat
  destination : Option Pos
  destinationHost : Option Nat
  visitTimer : Int
  visitsMade : Nat
  visitsHosted : Nat
  hosting : Bool
  homePos : Option Pos
deriving DecidableEq, Repr

inductive AgentRec where
  | taxi (t : Taxi)
  | resident (r : Resident)
deriving DecidableEq, Repr

def AgentRec.uid : AgentRec → Nat
  | .taxi t => t.uid
  | .resident r => r.uid

/-- A pending request, i.e. one heap element
`(priority, request_time, visits_made, unique_id, resident)` of
lab1.py line 216.  The trailing Python tuple component is the resident
object itself, never reached by the comparison when the four leading
keys differ; the embedding keeps the resident's uid. -/
structure Entry where
  priority : Int
  requestTime : Nat
  visitsMade : Nat
  ordinal : Nat
  residentUid : Nat
deriving DecidableEq, Repr

/-- The whole mutable model (`CityModel` fields).  The Mesa grid's
occupancy index is derived: every placed agent is also in `schedule`
and carries its position, so `occupantsAt p` is the set of scheduled
agents at `p`.  The `DataCollector` and all `print` calls only read
state and are omitted. -/
structure CityState where
  width : Nat
  height : Nat
  ticksPerDay : Nat
  schedule : List AgentRec
  queue : List Entry
  totalWaitingTime : Nat
  numRides : Nat
  currentTick : Nat
  day : Nat
  extraTaxis : List Nat
  modelRng : Rng
  nextUid : Nat
deriving DecidableEq, Repr

/-! ### State access helpers -/

def lookupAgent (s : CityState) (uid : Nat) : Option AgentRec :=
  s.schedule.find? (fun a => a.uid = uid)

def lookupTaxi (s : CityState) (uid : Nat) : Option Taxi :=
  match lookupAgent s uid with
  | some (.taxi t) => some t
  | _ => none

def lookupResident (s : CityState) (uid : Nat) : Option Resident :=
  match lookupAgent s uid with
  | some (.resident r) => some r
  | _ => none

/-- Replace the agent with the given uid by the given taxi record
(Python mutates the object in place; uids are unique). -/
def setTaxi (s : CityState) (uid : Nat) (t : Taxi) : CityState :=
  { s with schedule := s.schedule.map fun a => if a.uid = uid then .taxi t else a }

/-- Replace the agent with the given uid by the given resident record. -/
def setResident (s : CityState) (uid : Nat) (r : Resident) : CityState :=
  { s with schedule := s.schedule.map fun a => if a.uid = uid then .resident r else a }

/-- Draw one value from the model's seeded random source
(`self.random`). -/
def drawM (s : CityState) : Nat × CityState :=
  (s.modelRng.headD 0, { s with modelRng := s.modelRng.tail })

/-- Project a schedule record to its resident, if it is one. -/
def residentOf? : AgentRec → Option Resident
  | .resident r => some r
  | .taxi _ => none

/-- The residents of the schedule, in insertion order. -/
def residentsOf (s : CityState) : List Resident :=
  s.schedule.filterMap residentOf?

/-! ### Request queue (`CityModel.add_request_to_queue`, lines 209-218)

Python uses a binary heap (`heapq`) of tuples compared
lexicographically; the embedding keeps the pending entries as a plain
list and models `heappop` as removal of the lexicographically least
entry (`popMin`), which is `heapq`'s contract. -/

/-- Strict lexicographic order on the four comparison keys. -/
def entryLtB (a b : Entry) : Bool :=
  if a.priority ≠ b.priority then a.priority < b.priority
  else if a.requestTime ≠ b.requestTime then a.requestTime < b.requestTime
  else if a.visitsMade ≠ b.visitsMade then a.visitsMade < b.visitsMade
  else a.ordinal < b.ordinal

def entryLeB (a b : Entry) : Bool := ! entryLtB b a

/-- The entry built by `add_request_to_queue`:
`priority = request_time - (5 if visits_made < 2 else 0)`.  Python's
`request_time` is never `None` at an enqueue site; `getD 0` stands in
for the attribute access. -/
def mkEntry (r : Resident) : Entry :=
  { priority :=
      (r.requestTime.getD 0 : Int) - (if r.visitsMade < 2 then 5 else 0)
    requestTime := r.requestTime.getD 0
    visitsMade := r.visitsMade
    ordinal := r.ordinal
    residentUid := r.uid }

def add_request_to_queue (s : CityState) (r : Resident) : CityState :=
  { s with queue := mkEntry r :: s.queue }

/-- `heapq.heappop`: remove and return a lexicographically least entry
(leftmost among equals). -/
def popMin : List Entry → Option (Entry × List Entry)
  | [] => none
  | e :: es =>
    match popMin es with
    | none => some (e, [])
    | some (m, rest) => if entryLeB e m then some (e, es) else some (m, e :: rest)

/-! ### Dispatcher (`CityModel.dispatch_taxis` and
`CityModel.find_nearest_taxi`, lines 245-284) -/

/-- The uids of the idle taxis, in schedule (insertion) order: the
`available_taxis` snapshot of line 246. -/
def idleTaxiUids (s : CityState) : List Nat :=
  s.schedule.filterMap fun a =>
    match a with
    | .taxi t => if t.tstate = .idle then some t.uid else none
    | .resident _ => none

/-- `find_nearest_taxi`: scan the schedule in insertion order keeping
the idle taxi with strictly smallest Manhattan distance to the
resident's position (first minimum wins). -/
def find_nearest_taxi (s : CityState) (rpos : Pos) : Option Nat :=
  (s.schedule.foldl
    (fun acc a =>
      match a with
      | .taxi t =>
        if t.tstate = .idle then
          match acc with
          | none => some (t.uid, manhattan rpos t.pos)
          | some (u0, d0) =>
            if manhattan rpos t.pos < d0 then some (t.uid, manhattan rpos t.pos)
            else some (u0, d0)
        else acc
      | .resident _ => acc)
    none).map Prod.fst

/-- The `while self.request_priority_queue and available_taxis` loop.
The fuel is the queue length: every iteration pops exactly one entry,
so `s.queue.length` fuel is never exhausted before the queue empties. -/
def dispatchLoop : Nat → CityState → List Nat → CityState
  | 0, s, _ => s
  | fuel + 1, s, avail =>
    if avail.isEmpty then s
    else
      match popMin s.queue with
      | none => s
      | some (e, rest) =>
        let s1 := { s with queue := rest }
        match lookupResident s1 e.residentUid with
        | none => dispatchLoop fuel s1 avail
        | some r =>
          if r.rstate ≠ .waiting then
            -- stale entry: discarded, `continue`
            dispatchLoop fuel s1 avail
          else
            match find_nearest_taxi s1 r.pos with
            | some tUid =>
              let s2 :=
                match lookupTaxi s1 tUid with
                | some t =>
                  setResident (setTaxi s1 tUid { t with assigned := some r.uid, tstate := .toPickup })
                    r.uid { r with rstate := .inTransit }
                | none => s1
              dispatchLoop fuel s2 (avail.erase tUid)
            | none =>
              -- push the entry back (with the resident's current
              -- request_time, line 268) and stop the pass
              { s1 with queue := { e with requestTime := r.requestTime.getD 0 } :: rest }

def dispatch_taxis (s : CityState) : CityState :=
  let avail := idleTaxiUids s
  if avail.isEmpty then s else dispatchLoop s.queue.length s avail

/-! ### Taxi step (`TaxiAgent.step`, lines 78-112) -/

/-- `random.randint(HALF_HOUR_IN_TICKS, THREE_HOURS_IN_TICKS)` at
lab1.py line 103: drawn from the PROCESS-GLOBAL stream, not from the
model's seeded source. -/
def sampleVisit (g : GRng) : Nat × GRng :=
  (HALF_HOUR_IN_TICKS + (draw g).1 % (THREE_HOURS_IN_TICKS - HALF_HOUR_IN_TICKS + 1),
    (draw g).2)

/-- The resident-side bookkeeping of a social (non-home) drop-off
(lines 101-108), with the sampled visit duration passed in: mark the
resident visiting with the given timer, bump its visit count, and flag
its host (if any) as hosting. -/
def dropVisitUpdate (s : CityState) (r : Resident) (timer : Int) : CityState :=
  let r1 := { r with rstate := .visiting, visitTimer := timer,
                     visitsMade := r.visitsMade + 1 }
  let s1 := setResident s r.uid r1
  match r.destinationHost with
  | some hUid =>
    match lookupResident s1 hUid with
    | some h =>
      setResident s1 hUid { h with hosting := true, visitsHosted := h.visitsHosted + 1 }
    | none => s1
  | none => s1

/-- The drop-off bookkeeping on the carried resident (lines 94-112).
Returns the updated state and global stream; the visit duration is
sampled from the process-global stream. -/
def dropOff (s : CityState) (tUid : Nat) (t : Taxi) (r : Resident) (g : GRng) :
    CityState × GRng :=
  let res :=
    if r.destination = r.homePos then
      (setResident s r.uid { r with rstate := .idle }, g)
    else
      (dropVisitUpdate s r ((sampleVisit g).1 : Int), (sampleVisit g).2)
  (setTaxi res.1 tUid
      { t with ridesConducted := t.ridesConducted + 1, assigned := none, tstate := .idle },
    res.2)

/-- One `TaxiAgent.step`.  Branches that would raise in Python (a
non-idle taxi with `assigned_request = None`, or a dangling uid) are
embedded as no-ops; they are unreachable from constructed states (see
the state/assignment invariant below). -/
def taxiStep (s : CityState) (uid : Nat) (g : GRng) : CityState × GRng :=
  match lookupTaxi s uid with
  | none => (s, g)
  | some t =>
    match t.tstate with
    | .idle => (s, g)
    | .toPickup =>
      match t.assigned.bind (lookupResident s) with
      | none => (s, g)
      | some r =>
        if t.pos ≠ r.pos then
          (setTaxi s uid { t with pos := move_toward t.pos r.pos t.speed }, g)
        else
          let waiting := s.currentTick - r.requestTime.getD 0
          (setTaxi
            { s with totalWaitingTime := s.totalWaitingTime + waiting,
                     numRides := s.numRides + 1 }
            uid { t with tstate := .toDestination }, g)
    | .toDestination =>
      match t.assigned.bind (lookupResident s) with
      | none => (s, g)
      | some r =>
        match r.destination with
        | none => (s, g)
        | some dest =>
          if t.pos ≠ dest then
            (setTaxi s uid { t with pos := move_toward t.pos dest t.speed }, g)
          else
            dropOff s uid t r g

/-! ### Resident step (`ResidentAgent.step` and `initiate_visit`,
lines 137-167) -/

/-- `initiate_visit`: pick a host uniformly among the other idle,
non-hosting residents (schedule order), using the model's seeded
source; silently do nothing if none exists. -/
def initiate_visit (s : CityState) (r : Resident) : CityState :=
  let hosts := (residentsOf s).filter fun a =>
    a.uid ≠ r.uid && !a.hosting && a.rstate = RState.idle
  if hosts.isEmpty then s
  else
    let v := (drawM s).1
    let s1 := (drawM s).2
    match hosts.get? (v % hosts.length) with
    | none => s1
    | some host =>
      let r1 := { r with destinationHost := some host.uid, destination := some host.pos,
                         requestTime := some s1.currentTick, rstate := .waiting }
      add_request_to_queue (setResident s1 r.uid r1) r1

def residentStep (s : CityState) (uid : Nat) : CityState :=
  match lookupResident s uid with
  | none => s
  | some r =>
    match r.rstate with
    | .visiting =>
      let timer := r.visitTimer - 1
      if timer ≤ 0 then
        let r1 := { r with visitTimer := timer, destination := r.homePos,
                           rstate := .waiting, requestTime := some s.currentTick }
        let s1 := add_request_to_queue (setResident s uid r1) r1
        match r.destinationHost with
        | some hUid =>
          let s2 :=
            match lookupResident s1 hUid with
            | some h => setResident s1 hUid { h with hosting := false }
            | none => s1
          setResident s2 uid { r1 with destinationHost := none }
        | none => s1
      else setResident s uid { r with visitTimer := timer }
    | .idle =>
      if r.hosting then s
      else
        -- `self.random.random() < 0.1`: one draw from the seeded
        -- source; the embedding fires on draws ≡ 0 mod 10
        if (drawM s).1 % 10 = 0 then initiate_visit (drawM s).2 r else (drawM s).2
    | _ => s

/-! ### Scheduler (`mesa.time.RandomActivation`)

Mesa steps every agent once per tick in an order obtained by shuffling
the insertion-ordered agent list with the model's seeded source
(`random.shuffle`, Fisher-Yates: for i from n-1 down to 1 swap i with a
drawn j ≤ i). -/

def swapL (l : List Nat) (i j : Nat) : List Nat :=
  (l.set i (l.getD j 0)).set j (l.getD i 0)

def fyLoop : Nat → List Nat → Rng → List Nat × Rng
  | 0, l, rng => (l, rng)
  | i + 1, l, rng =>
    fyLoop i (swapL l (i + 1) ((draw rng).1 % (i + 2))) (draw rng).2

/-- Shuffle a uid list with the given seeded stream. -/
def shuffleUids (l : List Nat) (rng : Rng) : List Nat × Rng :=
  fyLoop (l.length - 1) l rng

/-- Step the agents in the given order, on the live state: an agent
stepping later sees the mutations of the ones before it. -/
def stepAgents : CityState → List Nat → GRng → CityState × GRng
  | s, [], g => (s, g)
  | s, uid :: rest, g =>
    match lookupAgent s uid with
    | some (.taxi _) => stepAgents (taxiStep s uid g).1 rest (taxiStep s uid g).2
    | some (.resident _) => stepAgents (residentStep s uid) rest g
    | none => stepAgents s rest g

/-! ### Capacity controller (`CityModel.adjust_taxi_supply`,
lines 287-309)

Python computes `avg_wait = total/num` in floats; at the comparison and
floor below the float and exact values agree for all realistic
magnitudes, and the embedding uses the exact arithmetic:
`avg_wait > threshold` iff `total > threshold * num`, and
`int(avg_wait / threshold) = total / (threshold * num)` (Nat floor
division). -/

/-- The `for i in range(taxis_to_add)` loop: each new extra taxi draws
x and y from the seeded source, is appended to the schedule (grid
placement is implicit) and recorded in `extra_taxis`. -/
def addExtras : CityState → Nat → CityState
  | s, 0 => s
  | s, n + 1 =>
    let vx := (drawM s).1
    let s1 := (drawM s).2
    let vy := (drawM s1).1
    let s2 := (drawM s1).2
    let t : Taxi :=
      { uid := s2.nextUid, pos := (vx % s2.width, vy % s2.height), tstate := .idle,
        assigned := none, ridesConducted := 0, speed := TAXI_SPEED }
    addExtras
      { s2 with schedule := s2.schedule ++ [.taxi t],
                extraTaxis := s2.extraTaxis ++ [t.uid],
                nextUid := s2.nextUid + 1 } n

def adjust_taxi_supply (s : CityState) : CityState :=
  let s1 :=
    if s.numRides > 0 ∧ s.totalWaitingTime > ONE_HOUR_IN_TICKS * s.numRides then
      let scaleFactor :=
        min 5 (max 1 (s.totalWaitingTime / (ONE_HOUR_IN_TICKS * s.numRides)))
      addExtras s (scaleFactor * 2)
    else s
  { s1 with totalWaitingTime := 0, numRides := 0 }

/-! ### Simulation loop (`CityModel.step`, lines 312-320) -/

def CityModel.step (s : CityState) (g : GRng) : CityState × GRng :=
  let order := (shuffleUids (s.schedule.map AgentRec.uid) s.modelRng).1
  let rng1 := (shuffleUids (s.schedule.map AgentRec.uid) s.modelRng).2
  let sg := stepAgents { s with modelRng := rng1 } order g
  let s2 := dispatch_taxis sg.1
  let s3 := { s2 with currentTick := s2.currentTick + 1 }
  if s3.currentTick % s3.ticksPerDay = 0 then
    ({ adjust_taxi_supply s3 with day := s3.day + 1 }, sg.2)
  else (s3, sg.2)

/-- Iterated stepping from a state with a given global stream. -/
def runSteps (s : CityState) (g : GRng) : Nat → CityState × GRng
  | 0 => (s, g)
  | n + 1 => CityModel.step (runSteps s g n).1 (runSteps s g n).2

inductive InitError where
  | emptyRange
  | placementStuck
deriving DecidableEq, Repr

inductive StepError where
  | divByZero
deriving DecidableEq, Repr

/-- `self.random.randrange(n)`: raises `ValueError` when the range is
empty (in particular for non-positive grid dimensions). -/
def randrangeS (n : Nat) (s : CityState) : Except InitError (Nat × CityState) :=
  if n = 0 then .error .emptyRange
  else .ok ((drawM s).1 % n, (drawM s).2)

/-- `CityModel._create_taxis` (lines 221-227). -/
def createTaxis : Nat → CityState → Except InitError CityState
  | 0, s => .ok s
  | n + 1, s => do
    let (x, s1) ← randrangeS s.width s
    let (y, s2) ← randrangeS s1.height s1
    let t : Taxi :=
      { uid := s2.nextUid, pos := (x, y), tstate := .idle, assigned := none,
        ridesConducted := 0, speed := TAXI_SPEED }
    createTaxis n
      { s2 with schedule := s2.schedule ++ [.taxi t], nextUid := s2.nextUid + 1 }

/-- Is some already-placed resident on this cell?
(`get_cell_list_contents` filtered to `ResidentAgent`, line 238.) -/
def residentAt (s : CityState) (p : Pos) : Bool :=
  (residentsOf s).any fun r => r.pos = p

/-- The `while not placed` retry loop of `_create_residents`.  Python
retries unboundedly; the embedding carries fuel and reports
`placementStuck` when the given stream cannot produce a free cell —
the Python loop would spin forever on such a stream. -/
def findFreeCell : Nat → CityState → Except InitError (Pos × CityState)
  | 0, _ => .error .placementStuck
  | fuel + 1, s => do
    let (x, s1) ← randrangeS s.width s
    let (y, s2) ← randrangeS s1.height s1
    if residentAt s2 (x, y) then findFreeCell fuel s2 else .ok ((x, y), s2)

/-- `CityModel._create_residents` (lines 230-242): each resident is
retried onto a cell holding no other resident; its home is where it
was placed. -/
def createResidents : Nat → Nat → CityState → Except InitError CityState
  | 0, _, s => .ok s
  | n + 1, i, s => do
    let (p, s1) ← findFreeCell (s.modelRng.length + 1) s
    let r : Resident :=
      { uid := s1.nextUid, ordinal := i, pos := p, rstate := .idle,
        requestTime := none, destination := none, destinationHost := none,
        visitTimer := 0, visitsMade := 0, visitsHosted := 0, hosting := false,
        homePos := some p }
    createResidents n (i + 1)
      { s1 with schedule := s1.schedule ++ [.resident r], nextUid := s1.nextUid + 1 }

/-- The construction-time configuration (`CityModel.__init__`
parameters; the taxi speed is NOT among them — it is a module
constant). -/
structure Config where
  width : Nat := 140
  height : Nat := 170
  initialTaxis : Nat := 50
  initialResidents : Nat := 470
  ticksPerDay : Nat := 100
deriving DecidableEq, Repr

/-- `CityModel.__init__` (lines 177-206): store the configuration
UNVALIDATED, create the empty grid/scheduler/queue/stats, then place
taxis and residents.  The seeded source injected through `seed` is the
`rng` stream. -/
def initCity (cfg : Config) (rng : Rng) : Except InitError CityState := do
  let s0 : CityState :=
    { width := cfg.width, height := cfg.height, ticksPerDay := cfg.ticksPerDay,
      schedule := [], queue := [], totalWaitingTime := 0, numRides := 0,
      currentTick := 0, day := 1, extraTaxis := [], modelRng := rng, nextUid := 0 }
  let s1 ← createTaxis cfg.initialTaxis s0
  createResidents cfg.initialResidents 0 s1

/-- `CityModel.step` as Python executes it when `ticks_per_day = 0`:
the day-boundary check `current_tick % ticks_per_day` raises
`ZeroDivisionError`, so the whole step call fails (mutations made
earlier in the raising step are lost to the caller). -/
def stepChecked (s : CityState) (g : GRng) : Except StepError (CityState × GRng) :=
  if s.ticksPerDay = 0 then .error .divByZero else .ok (CityModel.step s g)

/-! ### Specification-side helper predicates -/

/-- The claimed vehicle invariant, per agent record:
`assignedRequest` is non-null iff state is not Idle. -/
def agentInvB : AgentRec → Bool
  | .taxi t => decide (t.tstate ≠ TState.idle) == decide (t.assigned ≠ none)
  | .resident _ => true

/-- The invariant over a whole state. -/
def TaxiInv (s : CityState) : Prop := ∀ a ∈ s.schedule, agentInvB a = true

/-- Erase every resident's visit timer (used to state that the
process-global stream can influence a step only through the sampled
visit duration). -/
def eraseAgentTimer : AgentRec → AgentRec
  | .taxi t => .taxi t
  | .resident r => .resident { r with visitTimer := 0 }

def eraseTimers (s : CityState) : CityState :=
  { s with schedule := s.schedule.map eraseAgentTimer }

/-! ### Concrete record builders used for scenario states -/

/-- An empty model shell with a 10 by 10 grid (concrete scenarios
override the fields they care about). -/
def baseState : CityState :=
  { width := 10, height := 10, ticksPerDay := 100, schedule := [], queue := [],
    totalWaitingTime := 0, numRides := 0, currentTick := 0, day := 1,
    extraTaxis := [], modelRng := [], nextUid := 2 }

/-- A freshly created taxi, as `TaxiAgent.__init__` builds it. -/
def taxiAt (uid : Nat) (p : Pos) : Taxi :=
  { uid := uid, pos := p, tstate := .idle, assigned := none,
    ridesConducted := 0, speed := TAXI_SPEED }

/-- A freshly placed resident, as `_create_residents` leaves it. -/
def residentAtHome (uid ordinal : Nat) (p : Pos) : Resident :=
  { uid := uid, ordinal := ordinal, pos := p, rstate := .idle,
    requestTime := none, destination := none, destinationHost := none,
    visitTimer := 0, visitsMade := 0, visitsHosted := 0, hosting := false,
    homePos := some p }

/-- The end-to-end scenario state of the spec's testable properties:
a 10 by 10 grid, one vehicle at (0, 0) forced to speed 1, one requester
with home (5, 5) forced into Waiting at tick 0 with destination (9, 9)
and its request already enqueued. -/
def c3State : CityState :=
  { baseState with
      schedule := [.taxi { taxiAt 0 (0, 0) with speed := 1 },
        .resident { residentAtHome 1 0 (5, 5) with
          rstate := .waiting, requestTime := some 0, destination := some (9, 9) }],
      queue := [mkEntry { residentAtHome 1 0 (5, 5) with
        rstate := .waiting, requestTime := some 0, destination := some (9, 9) }] }

/-- The scenario state after `n` steps (empty seeded stream, empty
global stream). -/
def c3At (n : Nat) : CityState := (runSteps c3State [] n).1

/-! ## Theorems -/

/-! ### Movement lemmas (claim C5) -/

theorem stepToward_spec (c t : Nat) :
    ndist (stepToward c t) t ≤ ndist c t ∧
    ndist c t ≤ ndist (stepToward c t) t + 1 ∧
    min c t ≤ stepToward c t ∧ stepToward c t ≤ max c t ∧
    (c ≠ t → ndist (stepToward c t) t + 1 = ndist c t) := by
  unfold stepToward ndist
  split_ifs <;> omega

theorem stepToward_box (a b c t : Nat) (h1 : min a t ≤ c) (h2 : c ≤ max a t)
    (hb : b = stepToward c t) : min a t ≤ b ∧ b ≤ max a t := by
  subst hb
  unfold stepToward
  split_ifs <;> omega

theorem unitStep_manhattan_lt (p t : Pos) (h : p ≠ t) :
    manhattan (unitStep p t) t < manhattan p t := by
  obtain ⟨px, py⟩ := p
  obtain ⟨tx, ty⟩ := t
  have hx := stepToward_spec px tx
  have hy := stepToward_spec py ty
  have hne : px ≠ tx ∨ py ≠ ty := by
    by_contra hc
    push_neg at hc
    exact h (by simp [hc.1, hc.2])
  unfold manhattan unitStep at *
  rcases hne with hne | hne
  · have := hx.2.2.2.2 hne
    simp only at *
    omega
  · have := hy.2.2.2.2 hne
    simp only at *
    omega

theorem moveLoop_lands (k : Nat) (p t : Pos) (h : manhattan p t ≤ k) :
    moveLoop k p t = t := by
  induction k generalizing p with
  | zero =>
    obtain ⟨px, py⟩ := p
    obtain ⟨tx, ty⟩ := t
    unfold manhattan ndist at h
    simp only at h
    have hx : px = tx := by omega
    have hy : py = ty := by omega
    simp [moveLoop, hx, hy]
  | succ k ih =>
    by_cases hp : p = t
    · subst hp
      have hstep : unitStep p p = p := by
        obtain ⟨px, py⟩ := p
        unfold unitStep stepToward
        simp
      rw [moveLoop, hstep]
      apply ih
      obtain ⟨px, py⟩ := p
      unfold manhattan ndist
      simp
    · rw [moveLoop]
      apply ih
      have := unitStep_manhattan_lt p t hp
      omega

theorem moveLoop_cheb (k : Nat) (p t : Pos) :
    cheb (moveLoop k p t) t ≤ cheb p t ∧ cheb p t ≤ cheb (moveLoop k p t) t + k := by
  induction k generalizing p with
  | zero => simp [moveLoop]
  | succ k ih =>
    rw [moveLoop]
    have hu := ih (unitStep p t)
    obtain ⟨px, py⟩ := p
    obtain ⟨tx, ty⟩ := t
    have hx := stepToward_spec px tx
    have hy := stepToward_spec py ty
    unfold cheb unitStep at *
    simp only at *
    omega

theorem moveLoop_box (k : Nat) (p q t : Pos)
    (h : min p.1 t.1 ≤ q.1 ∧ q.1 ≤ max p.1 t.1 ∧ min p.2 t.2 ≤ q.2 ∧ q.2 ≤ max p.2 t.2) :
    min p.1 t.1 ≤ (moveLoop k q t).1 ∧ (moveLoop k q t).1 ≤ max p.1 t.1 ∧
    min p.2 t.2 ≤ (moveLoop k q t).2 ∧ (moveLoop k q t).2 ≤ max p.2 t.2 := by
  induction k generalizing q with
  | zero => simpa [moveLoop] using h
  | succ k ih =>
    rw [moveLoop]
    apply ih
    have hx := stepToward_box p.1 (stepToward q.1 t.1) q.1 t.1 h.1 h.2.1 rfl
    have hy := stepToward_box p.2 (stepToward q.2 t.2) q.2 t.2 h.2.2.1 h.2.2.2 rfl
    exact ⟨hx.1, hx.2, hy.1, hy.2⟩

theorem cheb_le_manhattan (p t : Pos) : cheb p t ≤ manhattan p t := by
  unfold cheb manhattan
  omega

theorem cheb_self (t : Pos) : cheb t t = 0 := by
  unfold cheb ndist
  omega

/-- C5: a single `move_toward` call decreases the Chebyshev distance to
the target by at most `speed` (and never increases it), never moves the
agent past the target on either axis, and lands exactly on the target
whenever the initial Manhattan distance was within `speed`. -/
theorem C5_move_toward_spec (p t : Pos) (speed : Nat) :
    cheb p t ≤ cheb (move_toward p t speed) t + speed ∧
    cheb (move_toward p t speed) t ≤ cheb p t ∧
    min p.1 t.1 ≤ (move_toward p t speed).1 ∧
    (move_toward p t speed).1 ≤ max p.1 t.1 ∧
    min p.2 t.2 ≤ (move_toward p t speed).2 ∧
    (move_toward p t speed).2 ≤ max p.2 t.2 ∧
    (manhattan p t ≤ speed → move_toward p t speed = t) := by
  unfold move_toward
  split_ifs with h
  · have h1 := cheb_le_manhattan p t
    have h2 := cheb_self t
    refine ⟨by omega, by omega, ?_, ?_, ?_, ?_, fun _ => rfl⟩ <;> omega
  · have hc := moveLoop_cheb speed p t
    have hb := moveLoop_box speed p p t ⟨by omega, by omega, by omega, by omega⟩
    refine ⟨by omega, by omega, hb.1, hb.2.1, hb.2.2.1, hb.2.2.2, fun hm => ?_⟩
    have : manhattan p t = speed := by omega
    exact moveLoop_lands speed p t (by omega)

/-- Closed instance of C5: from (0,0) with speed 3, target (2,1) is
within reach and is hit exactly. -/
theorem C5_move_toward_spec_witness :
    manhattan (0, 0) (2, 1) ≤ 3 ∧ move_toward (0, 0) (2, 1) 3 = (2, 1) :=
  ⟨by decide, (C5_move_toward_spec (0, 0) (2, 1) 3).2.2.2.2.2.2 (by decide)⟩

/-! ### Queue ordering lemmas (claim C6) -/

theorem entryLtB_iff (a b : Entry) : entryLtB a b = true ↔
    (a.priority < b.priority ∨
      (a.priority = b.priority ∧
        (a.requestTime < b.requestTime ∨
          (a.requestTime = b.requestTime ∧
            (a.visitsMade < b.visitsMade ∨
              (a.visitsMade = b.visitsMade ∧ a.ordinal < b.ordinal)))))) := by
  unfold entryLtB
  split_ifs <;> simp_all

theorem entryLeB_iff (a b : Entry) : entryLeB a b = true ↔ ¬ entryLtB b a = true := by
  unfold entryLeB
  simp

theorem entryLeB_rfl (a : Entry) : entryLeB a a = true := by
  rw [entryLeB_iff, entryLtB_iff]
  omega

theorem entryLeB_total (a b : Entry) :
    entryLeB a b = true ∨ entryLeB b a = true := by
  rw [entryLeB_iff, entryLeB_iff, entryLtB_iff, entryLtB_iff]
  omega

theorem entryLeB_trans (a b c : Entry) (h1 : entryLeB a b = true)
    (h2 : entryLeB b c = true) : entryLeB a c = true := by
  rw [entryLeB_iff, entryLtB_iff] at *
  omega

theorem popMin_cons_ne_none (a : Entry) (as : List Entry) :
    popMin (a :: as) ≠ none := by
  rw [popMin]
  rcases popMin as with _ | ⟨m, r⟩
  · simp
  · dsimp only
    split <;> simp

theorem popMin_spec (q : List Entry) (e : Entry) (rest : List Entry)
    (h : popMin q = some (e, rest)) :
    (∀ x ∈ q, entryLeB e x = true) ∧ q.Perm (e :: rest) := by
  induction q generalizing e rest with
  | nil => simp [popMin] at h
  | cons a as ih =>
    rw [popMin] at h
    cases hp : popMin as with
    | none =>
      rw [hp] at h
      simp only [Option.some.injEq, Prod.mk.injEq] at h
      obtain ⟨rfl, rfl⟩ := h
      have has : as = [] := by
        cases as with
        | nil => rfl
        | cons b bs => exact absurd hp (popMin_cons_ne_none b bs)
      subst has
      exact ⟨by simpa using entryLeB_rfl a, List.Perm.refl _⟩
    | some mr =>
      obtain ⟨m, r⟩ := mr
      rw [hp] at h
      dsimp only at h
      have ihm := ih m r hp
      split at h
      · next hle =>
        simp only [Option.some.injEq, Prod.mk.injEq] at h
        obtain ⟨rfl, rfl⟩ := h
        refine ⟨?_, List.Perm.refl _⟩
        intro x hx
        rcases List.mem_cons.mp hx with rfl | hx
        · exact entryLeB_rfl x
        · exact entryLeB_trans a m x hle (ihm.1 x hx)
      · next hle =>
        simp only [Option.some.injEq, Prod.mk.injEq] at h
        obtain ⟨rfl, rfl⟩ := h
        have ham : entryLeB m a = true := by
          rcases entryLeB_total a m with hc | hc
          · exact absurd hc hle
          · exact hc
        refine ⟨?_, ?_⟩
        · intro x hx
          rcases List.mem_cons.mp hx with rfl | hx
          · exact ham
          · exact ihm.1 x hx
        · exact (List.Perm.cons a ihm.2).trans (List.Perm.swap m a r)

/-- C6: `add_request_to_queue` enqueues an entry whose priority is
`requestTime - 5` for residents with fewer than two visits and
`requestTime` otherwise; popping always returns an entry minimal in the
ascending lexicographic order on (priority, requestTime, visitsMade,
ordinal) and removes exactly it; and of two queued entries with
requestTime 100 and visitsMade 0 resp. 2, the visitsMade = 0 entry is
dequeued first. -/
theorem C6_queue_priority (s : CityState) (r : Resident) (q : List Entry)
    (e : Entry) (rest : List Entry) :
    ((add_request_to_queue s r).queue = mkEntry r :: s.queue ∧
      (mkEntry r).priority =
        (if r.visitsMade < 2 then (r.requestTime.getD 0 : Int) - 5
         else (r.requestTime.getD 0 : Int))) ∧
    (popMin q = some (e, rest) →
      (∀ x ∈ q, entryLeB e x = true) ∧ q.Perm (e :: rest)) ∧
    popMin [⟨95, 100, 0, 7, 7⟩, ⟨100, 100, 2, 8, 8⟩] =
      some (⟨95, 100, 0, 7, 7⟩, [⟨100, 100, 2, 8, 8⟩]) := by
  refine ⟨⟨rfl, ?_⟩, popMin_spec q e rest, by decide⟩
  unfold mkEntry
  split_ifs <;> simp

/-- Closed instance of C6 at a two-element queue. -/
theorem C6_queue_priority_witness :
    popMin [(⟨95, 100, 0, 7, 7⟩ : Entry), ⟨100, 100, 2, 8, 8⟩] =
        some (⟨95, 100, 0, 7, 7⟩, [⟨100, 100, 2, 8, 8⟩]) ∧
      ∀ x ∈ [(⟨95, 100, 0, 7, 7⟩ : Entry), ⟨100, 100, 2, 8, 8⟩],
        entryLeB ⟨95, 100, 0, 7, 7⟩ x = true := by
  have h := C6_queue_priority
    { width := 1, height := 1, ticksPerDay := 1, schedule := [], queue := [],
      totalWaitingTime := 0, numRides := 0, currentTick := 0, day := 1,
      extraTaxis := [], modelRng := [], nextUid := 0 }
    { uid := 0, ordinal := 0, pos := (0, 0), rstate := .idle, requestTime := none,
      destination := none, destinationHost := none, visitTimer := 0,
      visitsMade := 0, visitsHosted := 0, hosting := false, homePos := none }
    [⟨95, 100, 0, 7, 7⟩, ⟨100, 100, 2, 8, 8⟩] ⟨95, 100, 0, 7, 7⟩
    [⟨100, 100, 2, 8, 8⟩]
  exact ⟨h.2.2, (h.2.1 h.2.2).1⟩

/-! ### Dispatch exhaustion (claim C7) -/

theorem lookupResident_set_queue (s : CityState) (q : List Entry) (u : Nat) :
    lookupResident { s with queue := q } u = lookupResident s u := rfl

theorem find_nearest_set_queue (s : CityState) (q : List Entry) (p : Pos) :
    find_nearest_taxi { s with queue := q } p = find_nearest_taxi s p := rfl

/-- C7: a dispatch pass that starts with zero idle vehicles returns the
state unchanged (queue untouched, no assignments); and whenever the
mid-pass nearest-idle-vehicle search comes up empty, the popped entry
is pushed back (with the resident's current request time) and the pass
stops there. -/
theorem C7_dispatch_no_idle (s0 : CityState) (fuel : Nat) (s : CityState)
    (avail : List Nat) (e : Entry) (rest : List Entry) (r : Resident) :
    (idleTaxiUids s0 = [] → dispatch_taxis s0 = s0) ∧
    (avail ≠ [] → popMin s.queue = some (e, rest) →
      lookupResident s e.residentUid = some r → r.rstate = .waiting →
      find_nearest_taxi s r.pos = none →
      dispatchLoop (fuel + 1) s avail =
        { s with queue := { e with requestTime := r.requestTime.getD 0 } :: rest }) := by
  constructor
  · intro h
    unfold dispatch_taxis
    rw [h]
    rfl
  · intro hne hpop hlook hwait hnear
    have hav : avail.isEmpty = false := by
      cases avail with
      | nil => exact absurd rfl hne
      | cons x xs => rfl
    rw [dispatchLoop, hav]
    simp only [Bool.false_eq_true, if_false]
    rw [hpop]
    dsimp only
    rw [lookupResident_set_queue, hlook]
    dsimp only
    rw [hwait]
    simp only [ne_eq, not_true_eq_false, if_false, ite_false]
    rw [find_nearest_set_queue, hnear]

/-- Closed instance of C7: a state whose only taxi is mid-ride (so no
idle vehicle exists) is returned unchanged with its three queued
requests; and a loop iteration that finds no idle vehicle pushes the
popped entry back. -/
theorem C7_dispatch_no_idle_witness :
    (idleTaxiUids
        { baseState with
            schedule := [.taxi { taxiAt 0 (1, 1) with tstate := .toPickup, assigned := some 1 },
              .resident { residentAtHome 1 0 (5, 5) with rstate := .waiting, requestTime := some 3 }],
            queue := [⟨3, 3, 0, 0, 1⟩, ⟨4, 4, 0, 0, 1⟩, ⟨5, 5, 0, 0, 1⟩] } = [] ∧
      dispatch_taxis
        { baseState with
            schedule := [.taxi { taxiAt 0 (1, 1) with tstate := .toPickup, assigned := some 1 },
              .resident { residentAtHome 1 0 (5, 5) with rstate := .waiting, requestTime := some 3 }],
            queue := [⟨3, 3, 0, 0, 1⟩, ⟨4, 4, 0, 0, 1⟩, ⟨5, 5, 0, 0, 1⟩] } =
        { baseState with
            schedule := [.taxi { taxiAt 0 (1, 1) with tstate := .toPickup, assigned := some 1 },
              .resident { residentAtHome 1 0 (5, 5) with rstate := .waiting, requestTime := some 3 }],
            queue := [⟨3, 3, 0, 0, 1⟩, ⟨4, 4, 0, 0, 1⟩, ⟨5, 5, 0, 0, 1⟩] }) ∧
    dispatchLoop 1
        { baseState with
            schedule := [.resident { residentAtHome 1 0 (5, 5) with rstate := .waiting, requestTime := some 3 }],
            queue := [⟨(-2), 3, 0, 0, 1⟩] } [99] =
      { baseState with
          schedule := [.resident { residentAtHome 1 0 (5, 5) with rstate := .waiting, requestTime := some 3 }],
          queue := [⟨(-2), 3, 0, 0, 1⟩] } := by
  refine ⟨⟨by decide, ?_⟩, ?_⟩
  · exact (C7_dispatch_no_idle _ 0 baseState [] ⟨0, 0, 0, 0, 0⟩ []
      (residentAtHome 0 0 (0, 0))).1 (by decide)
  · exact (C7_dispatch_no_idle baseState 0
      { baseState with
          schedule := [.resident { residentAtHome 1 0 (5, 5) with rstate := .waiting, requestTime := some 3 }],
          queue := [⟨(-2), 3, 0, 0, 1⟩] } [99] ⟨(-2), 3, 0, 0, 1⟩ []
      { residentAtHome 1 0 (5, 5) with rstate := .waiting, requestTime := some 3 }).2
      (by decide) (by decide) (by decide) (by decide) (by decide)

/-! ### Capacity controller (claims C1 and C9) -/

theorem addExtras_mono (n : Nat) (s : CityState) :
    (∀ a ∈ s.schedule, a ∈ (addExtras s n).schedule) ∧
    (∀ u ∈ s.extraTaxis, u ∈ (addExtras s n).extraTaxis) := by
  induction n generalizing s with
  | zero => exact ⟨fun a ha => ha, fun u hu => hu⟩
  | succ n ih =>
    rw [addExtras]
    refine ⟨fun a ha => ?_, fun u hu => ?_⟩
    · exact (ih _).1 a (List.mem_append_left _ ha)
    · exact (ih _).2 u (List.mem_append_left _ hu)

/-- C1 (amended): the day-boundary capacity review never removes any
vehicle — every scheduled agent and every recorded extra-taxi tag
survives `adjust_taxi_supply`, so extra vehicles persist beyond their
day. -/
theorem C1_extras_never_removed (s : CityState) (a : AgentRec) (u : Nat) :
    (a ∈ s.schedule → a ∈ (adjust_taxi_supply s).schedule) ∧
    (u ∈ s.extraTaxis → u ∈ (adjust_taxi_supply s).extraTaxis) := by
  unfold adjust_taxi_supply
  constructor
  · intro ha
    split_ifs with h
    · exact (addExtras_mono _ s).1 a ha
    · exact ha
  · intro hu
    split_ifs with h
    · exact (addExtras_mono _ s).2 u hu
    · exact hu

/-- Closed instance of the amended C1. -/
theorem C1_extras_never_removed_witness :
    .taxi (taxiAt 7 (0, 0)) ∈
        (adjust_taxi_supply
          { baseState with schedule := [.taxi (taxiAt 7 (0, 0))], extraTaxis := [7] }).schedule ∧
      7 ∈ (adjust_taxi_supply
          { baseState with schedule := [.taxi (taxiAt 7 (0, 0))], extraTaxis := [7] }).extraTaxis :=
  ⟨(C1_extras_never_removed
      { baseState with schedule := [.taxi (taxiAt 7 (0, 0))], extraTaxis := [7] }
      (.taxi (taxiAt 7 (0, 0))) 7).1 (by decide),
    (C1_extras_never_removed
      { baseState with schedule := [.taxi (taxiAt 7 (0, 0))], extraTaxis := [7] }
      (.taxi (taxiAt 7 (0, 0))) 7).2 (by decide)⟩

/-- C1 counterexample: a vehicle tagged extra on the previous day is
NOT removed at the next day boundary — after a full day-boundary
`CityModel.step` it is still on the schedule and still tagged, so an
extra vehicle persists past one simulated day. -/
theorem C1_counterexample :
    (CityModel.step
          { baseState with
              schedule := [.taxi (taxiAt 7 (0, 0))], extraTaxis := [7],
              ticksPerDay := 1 } []).1.extraTaxis = [7] ∧
      .taxi (taxiAt 7 (0, 0)) ∈
        (CityModel.step
          { baseState with
              schedule := [.taxi (taxiAt 7 (0, 0))], extraTaxis := [7],
              ticksPerDay := 1 } []).1.schedule ∧
      (CityModel.step
          { baseState with
              schedule := [.taxi (taxiAt 7 (0, 0))], extraTaxis := [7],
              ticksPerDay := 1 } []).1.day = 2 := by
  decide

/-- C9: a day-boundary review of a day with zero completed rides leaves
the fleet (schedule and extra-tags) unchanged, and the aggregate
wait-time statistics are reset to (0, 0) at every invocation whether or
not any scaling occurred. -/
theorem C9_zero_rides_day (s : CityState) :
    (s.numRides = 0 →
      (adjust_taxi_supply s).schedule = s.schedule ∧
      (adjust_taxi_supply s).extraTaxis = s.extraTaxis) ∧
    (adjust_taxi_supply s).totalWaitingTime = 0 ∧
    (adjust_taxi_supply s).numRides = 0 := by
  unfold adjust_taxi_supply
  refine ⟨fun h => ?_, rfl, rfl⟩
  rw [if_neg]
  · exact ⟨rfl, rfl⟩
  · intro hc
    omega

/-- Closed instance of C9 at a concrete zero-ride day state. -/
theorem C9_zero_rides_day_witness :
    (adjust_taxi_supply
        { baseState with schedule := [.taxi (taxiAt 0 (2, 2))], totalWaitingTime := 9 }).schedule =
      [.taxi (taxiAt 0 (2, 2))] ∧
    (adjust_taxi_supply
        { baseState with schedule := [.taxi (taxiAt 0 (2, 2))], totalWaitingTime := 9 }).totalWaitingTime = 0 :=
  ⟨((C9_zero_rides_day
      { baseState with schedule := [.taxi (taxiAt 0 (2, 2))], totalWaitingTime := 9 }).1 rfl).1,
    (C9_zero_rides_day
      { baseState with schedule := [.taxi (taxiAt 0 (2, 2))], totalWaitingTime := 9 }).2.1⟩

/-! ### Vehicle state/assignment invariant (claim C4) -/

theorem exceptBind_error {A B : Type} (e : InitError) (f : A → Except InitError B) :
    (Except.error e >>= f) = Except.error e := rfl

theorem exceptBind_ok {A B : Type} (a : A) (f : A → Except InitError B) :
    (Except.ok a >>= f) = f a := rfl

theorem randrangeS_ok (n : Nat) (s : CityState) (v : Nat) (s1 : CityState)
    (h : randrangeS n s = .ok (v, s1)) :
    s1 = { s with modelRng := s.modelRng.tail } ∧ v = s.modelRng.headD 0 % n := by
  unfold randrangeS at h
  split at h
  · cases h
  · simp only [Except.ok.injEq, Prod.mk.injEq] at h
    exact ⟨h.2 ▸ rfl, h.1 ▸ rfl⟩

theorem lookupTaxi_mem (s : CityState) (uid : Nat) (t : Taxi)
    (h : lookupTaxi s uid = some t) : AgentRec.taxi t ∈ s.schedule := by
  unfold lookupTaxi lookupAgent at h
  cases hf : s.schedule.find? (fun a => a.uid = uid) with
  | none =>
    rw [hf] at h
    exact absurd h (by simp)
  | some a =>
    rw [hf] at h
    have hm := List.mem_of_find?_eq_some hf
    cases a with
    | taxi t0 =>
      simp only [Option.some.injEq] at h
      exact h ▸ hm
    | resident r => simp at h

theorem TaxiInv_schedule_eq {s s' : CityState} (h : s'.schedule = s.schedule)
    (hs : TaxiInv s) : TaxiInv s' := fun a ha => hs a (h ▸ ha)

theorem TaxiInv_setTaxi {s : CityState} (uid : Nat) (t : Taxi)
    (hs : TaxiInv s) (ht : agentInvB (.taxi t) = true) :
    TaxiInv (setTaxi s uid t) := by
  intro a ha
  simp only [setTaxi, List.mem_map] at ha
  obtain ⟨b, hb, hba⟩ := ha
  by_cases hu : b.uid = uid
  · rw [if_pos hu] at hba
    exact hba ▸ ht
  · rw [if_neg hu] at hba
    exact hba ▸ hs b hb

theorem TaxiInv_setResident {s : CityState} (uid : Nat) (r : Resident)
    (hs : TaxiInv s) : TaxiInv (setResident s uid r) := by
  intro a ha
  simp only [setResident, List.mem_map] at ha
  obtain ⟨b, hb, hba⟩ := ha
  by_cases hu : b.uid = uid
  · rw [if_pos hu] at hba
    exact hba ▸ rfl
  · rw [if_neg hu] at hba
    exact hba ▸ hs b hb

theorem TaxiInv_add_request {s : CityState} (r : Resident) (hs : TaxiInv s) :
    TaxiInv (add_request_to_queue s r) := hs

theorem TaxiInv_drawM {s : CityState} (hs : TaxiInv s) : TaxiInv (drawM s).2 := hs

theorem TaxiInv_initiate_visit (s : CityState) (r : Resident) (hs : TaxiInv s) :
    TaxiInv (initiate_visit s r) := by
  unfold initiate_visit
  dsimp only
  split
  · exact hs
  · split
    · exact TaxiInv_drawM hs
    · exact TaxiInv_add_request _ (TaxiInv_setResident _ _ (TaxiInv_drawM hs))

theorem TaxiInv_residentStep (s : CityState) (uid : Nat) (hs : TaxiInv s) :
    TaxiInv (residentStep s uid) := by
  unfold residentStep
  dsimp only
  split
  · exact hs
  · split
    · -- visiting
      split
      · split
        · split
          · exact TaxiInv_setResident _ _
              (TaxiInv_setResident _ _ (TaxiInv_add_request _ (TaxiInv_setResident _ _ hs)))
          · exact TaxiInv_setResident _ _ (TaxiInv_add_request _ (TaxiInv_setResident _ _ hs))
        · exact TaxiInv_add_request _ (TaxiInv_setResident _ _ hs)
      · exact TaxiInv_setResident _ _ hs
    · -- idle
      split
      · exact hs
      · split
        · exact TaxiInv_initiate_visit _ _ (TaxiInv_drawM hs)
        · exact TaxiInv_drawM hs
    · exact hs

theorem TaxiInv_dropVisitUpdate (s : CityState) (r : Resident) (timer : Int)
    (hs : TaxiInv s) : TaxiInv (dropVisitUpdate s r timer) := by
  unfold dropVisitUpdate
  dsimp only
  split
  · split
    · exact TaxiInv_setResident _ _ (TaxiInv_setResident _ _ hs)
    · exact TaxiInv_setResident _ _ hs
  · exact TaxiInv_setResident _ _ hs

theorem TaxiInv_dropOff (s : CityState) (tUid : Nat) (t : Taxi) (r : Resident)
    (g : GRng) (hs : TaxiInv s) : TaxiInv (dropOff s tUid t r g).1 := by
  unfold dropOff
  dsimp only
  apply TaxiInv_setTaxi
  · split
    · exact TaxiInv_setResident _ _ hs
    · exact TaxiInv_dropVisitUpdate _ _ _ hs
  · rfl

theorem TaxiInv_taxiStep (s : CityState) (uid : Nat) (g : GRng) (hs : TaxiInv s) :
    TaxiInv (taxiStep s uid g).1 := by
  unfold taxiStep
  split
  · exact hs
  · next t heq =>
    split
    · exact hs
    · -- to_pickup
      split
      · exact hs
      · next r hr =>
        split
        · -- still moving: only the position changes
          apply TaxiInv_setTaxi _ _ hs
          have hmem := lookupTaxi_mem s uid t heq
          have hinv := hs _ hmem
          simpa [agentInvB] using hinv
        · -- pickup transition: state toDestination, assignment kept
          apply TaxiInv_setTaxi
          · exact TaxiInv_schedule_eq rfl hs
          · cases ha : t.assigned with
            | none => rw [ha] at hr; simp [Option.bind] at hr
            | some ru => simp [agentInvB, ha]
    · -- to_destination
      split
      · exact hs
      · next r hr =>
        split
        · exact hs
        · split
          · apply TaxiInv_setTaxi _ _ hs
            have hmem := lookupTaxi_mem s uid t heq
            have hinv := hs _ hmem
            simpa [agentInvB] using hinv
          · exact TaxiInv_dropOff _ _ _ _ _ hs

theorem TaxiInv_stepAgents (order : List Nat) (s : CityState) (g : GRng)
    (hs : TaxiInv s) : TaxiInv (stepAgents s order g).1 := by
  induction order generalizing s g with
  | nil => exact hs
  | cons uid rest ih =>
    rw [stepAgents]
    split
    · exact ih _ _ (TaxiInv_taxiStep _ _ _ hs)
    · exact ih _ _ (TaxiInv_residentStep _ _ hs)
    · exact ih _ _ hs

theorem TaxiInv_dispatchLoop (fuel : Nat) (s : CityState) (avail : List Nat)
    (hs : TaxiInv s) : TaxiInv (dispatchLoop fuel s avail) := by
  induction fuel generalizing s avail with
  | zero => exact hs
  | succ fuel ih =>
    rw [dispatchLoop]
    dsimp only
    split
    · exact hs
    · split
      · exact hs
      · split
        · exact ih _ _ hs
        · next r hr =>
          split
          · exact ih _ _ hs
          · split
            · apply ih
              split
              · apply TaxiInv_setResident
                apply TaxiInv_setTaxi
                · exact TaxiInv_schedule_eq rfl hs
                · rfl
              · exact hs
            · exact hs

theorem TaxiInv_dispatch (s : CityState) (hs : TaxiInv s) :
    TaxiInv (dispatch_taxis s) := by
  unfold dispatch_taxis
  dsimp only
  split
  · exact hs
  · exact TaxiInv_dispatchLoop _ _ _ hs

theorem TaxiInv_addExtras (n : Nat) (s : CityState) (hs : TaxiInv s) :
    TaxiInv (addExtras s n) := by
  induction n generalizing s with
  | zero => exact hs
  | succ n ih =>
    rw [addExtras]
    apply ih
    intro a ha
    rcases List.mem_append.mp ha with ha | ha
    · exact hs a ha
    · simp only [List.mem_singleton] at ha
      subst ha
      rfl

theorem TaxiInv_adjust (s : CityState) (hs : TaxiInv s) :
    TaxiInv (adjust_taxi_supply s) := by
  unfold adjust_taxi_supply
  split
  · exact TaxiInv_addExtras _ _ hs
  · exact hs

theorem TaxiInv_step (s : CityState) (g : GRng) (hs : TaxiInv s) :
    TaxiInv (CityModel.step s g).1 := by
  unfold CityModel.step
  dsimp only
  split
  · exact TaxiInv_adjust _ (TaxiInv_dispatch _ (TaxiInv_stepAgents _ _ _ hs))
  · exact TaxiInv_dispatch _ (TaxiInv_stepAgents _ _ _ hs)

theorem TaxiInv_createTaxis (n : Nat) (s' : CityState) :
    ∀ s, createTaxis n s = .ok s' → TaxiInv s → TaxiInv s' := by
  induction n with
  | zero =>
    intro s h hs
    rw [createTaxis] at h
    cases h
    exact hs
  | succ n ih =>
    intro s h hs
    rw [createTaxis] at h
    cases hx : randrangeS s.width s with
    | error e =>
      rw [hx, exceptBind_error] at h
      cases h
    | ok xs =>
      obtain ⟨x, sx⟩ := xs
      rw [hx, exceptBind_ok] at h
      dsimp only at h
      cases hy : randrangeS sx.height sx with
      | error e =>
        rw [hy, exceptBind_error] at h
        cases h
      | ok ys =>
        obtain ⟨y, sy⟩ := ys
        rw [hy, exceptBind_ok] at h
        dsimp only at h
        apply ih _ h
        intro a ha
        rcases List.mem_append.mp ha with ha | ha
        · have hsx := (randrangeS_ok _ _ _ _ hx).1
          have hsy := (randrangeS_ok _ _ _ _ hy).1
          rw [hsy, hsx] at ha
          exact hs a ha
        · simp only [List.mem_singleton] at ha
          subst ha
          rfl

theorem findFreeCell_ok (fuel : Nat) (s : CityState) (p : Pos)
    (s' : CityState) (h : findFreeCell fuel s = .ok (p, s')) :
    s'.schedule = s.schedule ∧ s'.width = s.width ∧ s'.height = s.height ∧
      s'.nextUid = s.nextUid ∧ residentAt s' p = false := by
  induction fuel generalizing s with
  | zero =>
    rw [findFreeCell] at h
    cases h
  | succ fuel ih =>
    rw [findFreeCell] at h
    cases hx : randrangeS s.width s with
    | error e =>
      rw [hx, exceptBind_error] at h
      cases h
    | ok xs =>
      obtain ⟨x, sx⟩ := xs
      rw [hx, exceptBind_ok] at h
      dsimp only at h
      cases hy : randrangeS sx.height sx with
      | error e =>
        rw [hy, exceptBind_error] at h
        cases h
      | ok ys =>
        obtain ⟨y, sy⟩ := ys
        rw [hy, exceptBind_ok] at h
        dsimp only at h
        have hsx := (randrangeS_ok _ _ _ _ hx).1
        have hsy := (randrangeS_ok _ _ _ _ hy).1
        split at h
        · have hrec := ih _ h
          subst hsx
          subst hsy
          simpa using hrec
        · next hres =>
          simp only [Except.ok.injEq, Prod.mk.injEq] at h
          obtain ⟨rfl, rfl⟩ := h
          subst hsx
          subst hsy
          simp only [Bool.not_eq_true] at hres
          exact ⟨rfl, rfl, rfl, rfl, by simpa using hres⟩

theorem TaxiInv_createResidents (n : Nat) (s' : CityState) :
    ∀ i s, createResidents n i s = .ok s' → TaxiInv s → TaxiInv s' := by
  induction n with
  | zero =>
    intro i s h hs
    rw [createResidents] at h
    cases h
    exact hs
  | succ n ih =>
    intro i s h hs
    rw [createResidents] at h
    cases hf : findFreeCell (s.modelRng.length + 1) s with
    | error e =>
      rw [hf, exceptBind_error] at h
      cases h
    | ok ps =>
      obtain ⟨p, sp⟩ := ps
      rw [hf, exceptBind_ok] at h
      dsimp only at h
      apply ih _ _ h
      intro a ha
      rcases List.mem_append.mp ha with ha | ha
      · have hsched := (findFreeCell_ok _ _ _ _ hf).1
        rw [hsched] at ha
        exact hs a ha
      · simp only [List.mem_singleton] at ha
        subst ha
        rfl

theorem TaxiInv_initCity (cfg : Config) (rng : Rng) (s : CityState)
    (h : initCity cfg rng = .ok s) : TaxiInv s := by
  unfold initCity at h
  dsimp only at h
  cases ht : createTaxis cfg.initialTaxis
      { width := cfg.width, height := cfg.height, ticksPerDay := cfg.ticksPerDay,
        schedule := [], queue := [], totalWaitingTime := 0, numRides := 0,
        currentTick := 0, day := 1, extraTaxis := [], modelRng := rng,
        nextUid := 0 } with
  | error e =>
    rw [ht, exceptBind_error] at h
    cases h
  | ok s1 =>
    rw [ht, exceptBind_ok] at h
    have h1 : TaxiInv s1 :=
      TaxiInv_createTaxis _ _ _ ht (by intro a ha; simp at ha)
    exact TaxiInv_createResidents _ _ _ _ h h1

/-- C4: the invariant "a vehicle's state is non-Idle iff its assigned
request is non-null" holds in every constructed initial state, is
preserved by every full simulation step (hence holds in every reachable
state at every tick boundary), and is preserved by each individual
operation touching the two fields: the dispatch pass (assignment) and
the taxi step (pickup and drop-off transitions). -/
theorem C4_vehicle_invariant :
    (∀ (cfg : Config) (rng : Rng) (s : CityState),
      initCity cfg rng = .ok s → TaxiInv s) ∧
    (∀ (s : CityState) (g : GRng), TaxiInv s → TaxiInv (CityModel.step s g).1) ∧
    (∀ s : CityState, TaxiInv s → TaxiInv (dispatch_taxis s)) ∧
    (∀ (s : CityState) (uid : Nat) (g : GRng),
      TaxiInv s → TaxiInv (taxiStep s uid g).1) :=
  ⟨TaxiInv_initCity, fun s g => TaxiInv_step s g, TaxiInv_dispatch,
    fun s uid g => TaxiInv_taxiStep s uid g⟩

/-- Closed instance of C4: a constructed city of two taxis and one
resident satisfies the invariant, and the invariant survives one step
of a mid-ride configuration. -/
theorem C4_vehicle_invariant_witness :
    (match
        initCity
          { width := 3, height := 3, initialTaxis := 2, initialResidents := 1,
            ticksPerDay := 10 }
          [1, 2, 0, 1, 2, 2] with
      | .ok s => TaxiInv s
      | .error _ => False) ∧
    TaxiInv (CityModel.step
      { baseState with
          schedule := [.taxi { taxiAt 0 (1, 1) with tstate := .toPickup, assigned := some 1 },
            .resident { residentAtHome 1 0 (2, 2) with
              rstate := .inTransit, requestTime := some 0,
              destination := some (2, 2) }] } []).1 := by
  constructor
  · cases hinit :
        initCity
          { width := 3, height := 3, initialTaxis := 2, initialResidents := 1,
            ticksPerDay := 10 }
          [1, 2, 0, 1, 2, 2] with
    | error e =>
      have hok :
          (initCity
            { width := 3, height := 3, initialTaxis := 2, initialResidents := 1,
              ticksPerDay := 10 }
            [1, 2, 0, 1, 2, 2]).isOk = true := by decide
      rw [hinit] at hok
      cases hok
    | ok s => exact C4_vehicle_invariant.1 _ _ _ hinit
  · apply C4_vehicle_invariant.2.1
    unfold TaxiInv
    decide


/-! ### Seeded reproducibility (claim C2)

The injected seeded source is `modelRng`; the process-global `random`
module is the separately threaded `GRng`.  The lemmas below show that
within a taxi step the global stream can influence the state only
through the visit timer written at drop-off (`eraseTimers`-equality),
and that a taxi step never consumes the injected stream — while the
counterexample shows the timer itself really does come from the global
stream. -/

theorem eraseAgentTimer_uid (a : AgentRec) : (eraseAgentTimer a).uid = a.uid := by
  cases a <;> rfl

theorem eraseMap_find (l1 l2 : List AgentRec)
    (h : l1.map eraseAgentTimer = l2.map eraseAgentTimer) (u : Nat) :
    (l1.find? (fun a => a.uid = u)).map eraseAgentTimer =
      (l2.find? (fun a => a.uid = u)).map eraseAgentTimer := by
  induction l1 generalizing l2 with
  | nil =>
    cases l2 with
    | nil => rfl
    | cons b bs => simp at h
  | cons a as ih =>
    cases l2 with
    | nil => simp at h
    | cons b bs =>
      simp only [List.map_cons, List.cons.injEq] at h
      obtain ⟨hab, hrest⟩ := h
      have huid : a.uid = b.uid := by
        have hcu := congrArg AgentRec.uid hab
        rwa [eraseAgentTimer_uid, eraseAgentTimer_uid] at hcu
      by_cases hu : a.uid = u
      · rw [List.find?_cons_of_pos _ (by simp [hu]),
          List.find?_cons_of_pos _ (by simp [← huid, hu])]
        simpa using hab
      · rw [List.find?_cons_of_neg _ (by simp [hu]),
          List.find?_cons_of_neg _ (by simp [← huid, hu])]
        exact ih bs hrest

theorem eraseMap_set (l1 l2 : List AgentRec)
    (h : l1.map eraseAgentTimer = l2.map eraseAgentTimer) (u : Nat)
    (x1 x2 : AgentRec) (hx : eraseAgentTimer x1 = eraseAgentTimer x2) :
    (l1.map fun a => if a.uid = u then x1 else a).map eraseAgentTimer =
      (l2.map fun a => if a.uid = u then x2 else a).map eraseAgentTimer := by
  induction l1 generalizing l2 with
  | nil =>
    cases l2 with
    | nil => rfl
    | cons b bs => simp at h
  | cons a as ih =>
    cases l2 with
    | nil => simp at h
    | cons b bs =>
      simp only [List.map_cons, List.cons.injEq] at h ⊢
      obtain ⟨hab, hrest⟩ := h
      have huid : a.uid = b.uid := by
        have hcu := congrArg AgentRec.uid hab
        rwa [eraseAgentTimer_uid, eraseAgentTimer_uid] at hcu
      refine ⟨?_, ih bs hrest⟩
      by_cases hu : a.uid = u
      · rw [if_pos hu, if_pos (huid ▸ hu)]
        exact hx
      · rw [if_neg hu, if_neg (by rw [← huid]; exact hu)]
        exact hab

theorem eraseTimers_cong_set (sa sb : CityState)
    (h : eraseTimers sa = eraseTimers sb) (u : Nat) (x1 x2 : AgentRec)
    (hx : eraseAgentTimer x1 = eraseAgentTimer x2) :
    eraseTimers { sa with schedule := sa.schedule.map fun a => if a.uid = u then x1 else a } =
      eraseTimers { sb with schedule := sb.schedule.map fun a => if a.uid = u then x2 else a } := by
  unfold eraseTimers at h ⊢
  simp only [CityState.mk.injEq] at h ⊢
  obtain ⟨h1, h2, h3, hsched, h5, h6, h7, h8, h9, h10, h11, h12⟩ := h
  exact ⟨h1, h2, h3, eraseMap_set _ _ hsched u x1 x2 hx, h5, h6, h7, h8, h9, h10, h11, h12⟩

theorem eraseTimers_setResident_cong (sa sb : CityState) (u : Nat)
    (ra rb : Resident) (h : eraseTimers sa = eraseTimers sb)
    (hr : eraseAgentTimer (.resident ra) = eraseAgentTimer (.resident rb)) :
    eraseTimers (setResident sa u ra) = eraseTimers (setResident sb u rb) :=
  eraseTimers_cong_set sa sb h u _ _ hr

theorem eraseTimers_setTaxi_cong (sa sb : CityState) (u : Nat) (t : Taxi)
    (h : eraseTimers sa = eraseTimers sb) :
    eraseTimers (setTaxi sa u t) = eraseTimers (setTaxi sb u t) :=
  eraseTimers_cong_set sa sb h u _ _ rfl

theorem lookupResident_erase_cong (sa sb : CityState) (u : Nat)
    (h : eraseTimers sa = eraseTimers sb) :
    (lookupResident sa u).map (fun r => { r with visitTimer := 0 }) =
      (lookupResident sb u).map (fun r => { r with visitTimer := 0 }) := by
  have hsched : sa.schedule.map eraseAgentTimer = sb.schedule.map eraseAgentTimer := by
    have hcs := congrArg CityState.schedule h
    simpa [eraseTimers] using hcs
  have hf := eraseMap_find _ _ hsched u
  unfold lookupResident lookupAgent
  cases hfa : sa.schedule.find? (fun a => a.uid = u) with
  | none =>
    cases hfb : sb.schedule.find? (fun a => a.uid = u) with
    | none => rfl
    | some b =>
      rw [hfa, hfb] at hf
      simp at hf
  | some a =>
    cases hfb : sb.schedule.find? (fun a => a.uid = u) with
    | none =>
      rw [hfa, hfb] at hf
      simp at hf
    | some b =>
      rw [hfa, hfb] at hf
      simp only [Option.map_some'] at hf
      cases a with
      | taxi t1 =>
        cases b with
        | taxi t2 => rfl
        | resident r2 => exact absurd hf (by simp [eraseAgentTimer])
      | resident r1 =>
        cases b with
        | taxi t2 => exact absurd hf (by simp [eraseAgentTimer])
        | resident r2 =>
          dsimp only
          simp only [Option.map_some']
          simp only [eraseAgentTimer, Option.map_some', Option.some.injEq,
            AgentRec.resident.injEq] at hf
          exact congrArg some hf

theorem eraseTimers_hostUpdate (sA sB : CityState) (hUid : Nat)
    (h : eraseTimers sA = eraseTimers sB) :
    eraseTimers
        (match lookupResident sA hUid with
          | some h0 =>
            setResident sA hUid { h0 with hosting := true, visitsHosted := h0.visitsHosted + 1 }
          | none => sA) =
      eraseTimers
        (match lookupResident sB hUid with
          | some h0 =>
            setResident sB hUid { h0 with hosting := true, visitsHosted := h0.visitsHosted + 1 }
          | none => sB) := by
  have hl := lookupResident_erase_cong sA sB hUid h
  cases hlA : lookupResident sA hUid with
  | none =>
    cases hlB : lookupResident sB hUid with
    | none => exact h
    | some h2 =>
      rw [hlA, hlB] at hl
      simp at hl
  | some h1 =>
    cases hlB : lookupResident sB hUid with
    | none =>
      rw [hlA, hlB] at hl
      simp at hl
    | some h2 =>
      rw [hlA, hlB] at hl
      obtain ⟨u1, o1, p1, st1, rq1, dst1, dh1, vt1, vm1, vh1, ho1, hp1⟩ := h1
      obtain ⟨u2, o2, p2, st2, rq2, dst2, dh2, vt2, vm2, vh2, ho2, hp2⟩ := h2
      simp only [Option.map_some', Option.some.injEq, Resident.mk.injEq,
        and_true, true_and, eq_self_iff_true] at hl
      obtain ⟨rfl, rfl, rfl, rfl, rfl, rfl, rfl, rfl, rfl, rfl, rfl⟩ := hl
      exact eraseTimers_setResident_cong _ _ _ _ _ h rfl

theorem eraseTimers_dropVisitUpdate (s : CityState) (r : Resident) (t1 t2 : Int) :
    eraseTimers (dropVisitUpdate s r t1) = eraseTimers (dropVisitUpdate s r t2) := by
  unfold dropVisitUpdate
  dsimp only
  have hs1 := eraseTimers_setResident_cong s s r.uid
    { r with rstate := .visiting, visitTimer := t1, visitsMade := r.visitsMade + 1 }
    { r with rstate := .visiting, visitTimer := t2, visitsMade := r.visitsMade + 1 } rfl rfl
  cases hdh : r.destinationHost with
  | none =>
    rw [hdh] at hs1
    exact hs1
  | some hUid =>
    rw [hdh] at hs1
    exact eraseTimers_hostUpdate _ _ hUid hs1

theorem eraseTimers_dropOff (s : CityState) (tUid : Nat) (t : Taxi)
    (r : Resident) (g1 g2 : GRng) :
    eraseTimers (dropOff s tUid t r g1).1 = eraseTimers (dropOff s tUid t r g2).1 := by
  unfold dropOff
  dsimp only
  by_cases hret : r.destination = r.homePos
  · rw [if_pos hret, if_pos hret]
  · rw [if_neg hret, if_neg hret]
    exact eraseTimers_setTaxi_cong _ _ _ _ (eraseTimers_dropVisitUpdate _ _ _ _)

theorem dropOff_modelRng (s : CityState) (tUid : Nat) (t : Taxi) (r : Resident)
    (g : GRng) : (dropOff s tUid t r g).1.modelRng = s.modelRng := by
  unfold dropOff dropVisitUpdate
  dsimp only
  split
  · rfl
  · split
    · split <;> rfl
    · rfl

/-- C2 (amended): the only same-seed nondeterminism is the visit
duration.  A taxi step from one state under two different global
streams yields states that agree everywhere except on visit timers
(`eraseTimers`-equal), and a taxi step never consumes the injected
seeded stream; every other stochastic choice in the model (host
selection, visit initiation, placements, the scheduler shuffle) draws
from the injected `modelRng` by construction. -/
theorem C2_visit_sample_uses_global_stream (s : CityState) (uid : Nat)
    (g1 g2 : GRng) :
    eraseTimers (taxiStep s uid g1).1 = eraseTimers (taxiStep s uid g2).1 ∧
    (taxiStep s uid g1).1.modelRng = s.modelRng := by
  constructor
  · unfold taxiStep
    split
    · rfl
    · split
      · rfl
      · split
        · rfl
        · split
          · rfl
          · rfl
      · split
        · rfl
        · split
          · rfl
          · split
            · rfl
            · exact eraseTimers_dropOff _ _ _ _ _ _
  · unfold taxiStep
    split
    · rfl
    · split
      · rfl
      · split
        · rfl
        · split
          · rfl
          · rfl
      · split
        · rfl
        · split
          · rfl
          · split
            · rfl
            · exact dropOff_modelRng _ _ _ _ _

/-- C2 counterexample: from one and the same state (in particular, the
same injected seeded stream), two runs differing only in the
process-global stream produce different visit timers, hence different
states — seeded reproducibility fails at the drop-off sampling. -/
theorem C2_counterexample :
    (lookupResident
        (CityModel.step
          { baseState with
              schedule := [.taxi { taxiAt 0 (9, 9) with tstate := .toDestination, assigned := some 1 },
                .resident { residentAtHome 1 0 (5, 5) with
                  rstate := .inTransit, requestTime := some 0,
                  destination := some (9, 9) }] } [0]).1 1).map Resident.visitTimer = some 12 ∧
    (lookupResident
        (CityModel.step
          { baseState with
              schedule := [.taxi { taxiAt 0 (9, 9) with tstate := .toDestination, assigned := some 1 },
                .resident { residentAtHome 1 0 (5, 5) with
                  rstate := .inTransit, requestTime := some 0,
                  destination := some (9, 9) }] } [1]).1 1).map Resident.visitTimer = some 13 ∧
    (CityModel.step
        { baseState with
            schedule := [.taxi { taxiAt 0 (9, 9) with tstate := .toDestination, assigned := some 1 },
              .resident { residentAtHome 1 0 (5, 5) with
                rstate := .inTransit, requestTime := some 0,
                destination := some (9, 9) }] } [0]).1 ≠
      (CityModel.step
        { baseState with
            schedule := [.taxi { taxiAt 0 (9, 9) with tstate := .toDestination, assigned := some 1 },
              .resident { residentAtHome 1 0 (5, 5) with
                rstate := .inTransit, requestTime := some 0,
                destination := some (9, 9) }] } [1]).1 := by
  refine ⟨by decide, by decide, by decide⟩

/-! ### End-to-end scenario (claim C3) -/

theorem sampleVisit_range (g : GRng) :
    HALF_HOUR_IN_TICKS ≤ (sampleVisit g).1 ∧
      (sampleVisit g).1 ≤ THREE_HOURS_IN_TICKS := by
  have h : (draw g).1 % 61 < 61 := Nat.mod_lt _ (by omega)
  show 12 ≤ 12 + (draw g).1 % 61 ∧ 12 + (draw g).1 % 61 ≤ 72
  omega

/-- C3 counterexample: in the forced scenario the vehicle is already at
the pickup cell (5, 5) after only 5 movement ticks (it is at (4, 4)
after 4), and at (9, 9) after only 4 further movement ticks — because
`move_toward` advances BOTH axes within one unit step.  The claimed
"10 ticks of pure Manhattan movement" and "8 further ticks" are false
on the code. -/
theorem C3_counterexample :
    (lookupTaxi (c3At 6) 0).map Taxi.pos = some (5, 5) ∧
    (lookupTaxi (c3At 5) 0).map Taxi.pos = some (4, 4) ∧
    (lookupTaxi (c3At 11) 0).map Taxi.pos = some (9, 9) := by
  refine ⟨by decide, by decide, by decide⟩

/-- C3 (amended): in the scenario (10 by 10 grid, one vehicle at (0, 0)
of speed 1, one requester forced into Waiting at tick 0 at (5, 5) with
destination (9, 9)): the dispatcher binds the vehicle during the step
ending at tick 1; the vehicle reaches (5, 5) after 5 ticks of
diagonal-Manhattan movement, spends one tick on the pickup transition,
reaches (9, 9) after 4 further movement ticks, and on the next tick the
requester transitions to Visiting with a visit timer inside
[halfHourTicks, threeHourTicks] (for every global stream the sampled
duration lies in [12, 72]; here it is 12). -/
theorem C3_end_to_end :
    (c3At 1).currentTick = 1 ∧
    (lookupTaxi (c3At 1) 0).map Taxi.tstate = some .toPickup ∧
    (lookupTaxi (c3At 1) 0).map Taxi.assigned = some (some 1) ∧
    (lookupResident (c3At 1) 1).map Resident.rstate = some .inTransit ∧
    (lookupTaxi (c3At 5) 0).map Taxi.pos = some (4, 4) ∧
    (lookupTaxi (c3At 6) 0).map Taxi.pos = some (5, 5) ∧
    (lookupTaxi (c3At 7) 0).map Taxi.tstate = some .toDestination ∧
    (lookupTaxi (c3At 10) 0).map Taxi.pos = some (8, 8) ∧
    (lookupTaxi (c3At 11) 0).map Taxi.pos = some (9, 9) ∧
    (lookupResident (c3At 12) 1).map Resident.rstate = some .visiting ∧
    (lookupResident (c3At 12) 1).map Resident.visitTimer = some 12 ∧
    (lookupTaxi (c3At 12) 0).map Taxi.tstate = some .idle ∧
    HALF_HOUR_IN_TICKS ≤ 12 ∧ (12 : Nat) ≤ THREE_HOURS_IN_TICKS ∧
    ∀ g : GRng, HALF_HOUR_IN_TICKS ≤ (sampleVisit g).1 ∧
      (sampleVisit g).1 ≤ THREE_HOURS_IN_TICKS := by
  refine ⟨by decide, by decide, by decide, by decide, by decide, by decide, by decide,
    by decide, by decide, by decide, by decide, by decide, by decide, by decide,
    sampleVisit_range⟩

/-! ### Construction-time validation (claim C8) -/

/-- C8 counterexample: zero ticks-per-day is a malformed configuration,
yet construction succeeds — nothing fails fast at construction time. -/
theorem C8_counterexample :
    (initCity
      { width := 10, height := 10, initialTaxis := 1, initialResidents := 1,
        ticksPerDay := 0 }
      [0, 0, 1, 1]).isOk = true := by
  decide

/-- C8 (amended): the constructor validates nothing.  A zero
ticks-per-day configuration is accepted at construction; the failure
surfaces only when the first step reaches the day-boundary modulo
(Python's ZeroDivisionError).  A zero-width grid fails during
construction only incidentally — the first agent placement calls
`randrange` on an empty range — and a zero-width configuration with
nothing to place is accepted outright.  Vehicle speed is a module
constant, not configuration, so "zero speed" cannot even be supplied. -/
theorem C8_no_validation :
    (initCity
        { width := 10, height := 10, initialTaxis := 1, initialResidents := 1,
          ticksPerDay := 0 }
        [0, 0, 1, 1]).isOk = true ∧
    (∀ (s : CityState) (g : GRng), s.ticksPerDay = 0 →
      stepChecked s g = .error .divByZero) ∧
    initCity
        { width := 0, height := 10, initialTaxis := 1, initialResidents := 0,
          ticksPerDay := 5 }
        [0, 0] = .error .emptyRange ∧
    (initCity
        { width := 0, height := 0, initialTaxis := 0, initialResidents := 0,
          ticksPerDay := 0 }
        []).isOk = true := by
  refine ⟨by decide, ?_, by rfl, by decide⟩
  intro s g h
  unfold stepChecked
  rw [if_pos h]

/-- Closed instance of C8 (amended): the first checked step of a
zero-ticks-per-day model fails with the division-by-zero error. -/
theorem C8_no_validation_witness :
    stepChecked { baseState with ticksPerDay := 0 } [] = .error .divByZero :=
  C8_no_validation.2.1 { baseState with ticksPerDay := 0 } [] rfl

/-! ### Distinct resident homes (claim C10) -/

theorem residentAt_false (s : CityState) (p : Pos) (h : residentAt s p = false) :
    ∀ r ∈ residentsOf s, r.pos ≠ p := by
  unfold residentAt at h
  intro r hr
  rw [List.any_eq_false] at h
  have := h r hr
  simpa using this

theorem filterMap_residentOf_snoc_resident (l : List AgentRec) (r0 : Resident) :
    (l ++ [AgentRec.resident r0]).filterMap residentOf? =
      l.filterMap residentOf? ++ [r0] := by
  rw [List.filterMap_append]
  rfl

theorem filterMap_residentOf_snoc_taxi (l : List AgentRec) (t : Taxi) :
    (l ++ [AgentRec.taxi t]).filterMap residentOf? = l.filterMap residentOf? := by
  rw [List.filterMap_append]
  simp [residentOf?]

theorem residentsOf_createTaxis (n : Nat) (s' : CityState) :
    ∀ s, createTaxis n s = .ok s' → residentsOf s' = residentsOf s := by
  induction n with
  | zero =>
    intro s h
    rw [createTaxis] at h
    cases h
    rfl
  | succ n ih =>
    intro s h
    rw [createTaxis] at h
    cases hx : randrangeS s.width s with
    | error e =>
      rw [hx, exceptBind_error] at h
      cases h
    | ok xs =>
      obtain ⟨x, sx⟩ := xs
      rw [hx, exceptBind_ok] at h
      dsimp only at h
      cases hy : randrangeS sx.height sx with
      | error e =>
        rw [hy, exceptBind_error] at h
        cases h
      | ok ys =>
        obtain ⟨y, sy⟩ := ys
        rw [hy, exceptBind_ok] at h
        dsimp only at h
        rw [ih _ h]
        have hsx := (randrangeS_ok _ _ _ _ hx).1
        have hsy := (randrangeS_ok _ _ _ _ hy).1
        subst hsx
        subst hsy
        unfold residentsOf
        dsimp only
        rw [filterMap_residentOf_snoc_taxi]

theorem createResidents_distinct (n : Nat) (s' : CityState) :
    ∀ i s, createResidents n i s = .ok s' →
      (residentsOf s).Pairwise (fun a b => a.pos ≠ b.pos) →
      (∀ r ∈ residentsOf s, r.homePos = some r.pos) →
      (residentsOf s').Pairwise (fun a b => a.pos ≠ b.pos) ∧
        ∀ r ∈ residentsOf s', r.homePos = some r.pos := by
  induction n with
  | zero =>
    intro i s h h1 h2
    rw [createResidents] at h
    cases h
    exact ⟨h1, h2⟩
  | succ n ih =>
    intro i s h h1 h2
    rw [createResidents] at h
    cases hf : findFreeCell (s.modelRng.length + 1) s with
    | error e =>
      rw [hf, exceptBind_error] at h
      cases h
    | ok ps =>
      obtain ⟨p, sp⟩ := ps
      rw [hf, exceptBind_ok] at h
      dsimp only at h
      have hok := findFreeCell_ok _ _ _ _ hf
      have hres : sp.schedule.filterMap residentOf? = residentsOf s := by
        have h0 : residentsOf sp = residentsOf s := by
          unfold residentsOf
          rw [hok.1]
        exact h0
      have hfree : ∀ r ∈ residentsOf s, r.pos ≠ p := by
        intro r hr
        apply residentAt_false sp p hok.2.2.2.2 r
        show r ∈ sp.schedule.filterMap residentOf?
        rw [hres]
        exact hr
      apply ih _ _ h
      · unfold residentsOf
        dsimp only
        rw [filterMap_residentOf_snoc_resident, hres, List.pairwise_append]
        refine ⟨h1, by simp, ?_⟩
        intro a ha b hb
        simp only [List.mem_singleton] at hb
        subst hb
        exact hfree a ha
      · unfold residentsOf
        dsimp only
        rw [filterMap_residentOf_snoc_resident, hres]
        intro r hr
        rcases List.mem_append.mp hr with hr | hr
        · exact h2 r hr
        · simp only [List.mem_singleton] at hr
          subst hr
          rfl

/-- C10: in every successfully constructed model, the residents sit on
pairwise distinct cells (no requester shares a cell with another
requester) and each resident's home is exactly the cell it was placed
on; the placement loop retries until it finds a resident-free cell, so
a successful construction cannot place two residents together. -/
theorem C10_distinct_homes (cfg : Config) (rng : Rng) (s : CityState)
    (h : initCity cfg rng = .ok s) :
    (residentsOf s).Pairwise (fun a b => a.pos ≠ b.pos) ∧
      ∀ r ∈ residentsOf s, r.homePos = some r.pos := by
  unfold initCity at h
  dsimp only at h
  cases ht : createTaxis cfg.initialTaxis
      { width := cfg.width, height := cfg.height, ticksPerDay := cfg.ticksPerDay,
        schedule := [], queue := [], totalWaitingTime := 0, numRides := 0,
        currentTick := 0, day := 1, extraTaxis := [], modelRng := rng,
        nextUid := 0 } with
  | error e =>
    rw [ht, exceptBind_error] at h
    cases h
  | ok s1 =>
    rw [ht, exceptBind_ok] at h
    have hres1 := residentsOf_createTaxis _ _ _ ht
    apply createResidents_distinct _ _ _ _ h
    · rw [hres1]
      exact List.Pairwise.nil
    · rw [hres1]
      intro r hr
      exact absurd hr (List.not_mem_nil r)

/-- Closed instance of C10 at a concrete 2 by 2 construction with two
residents. -/
theorem C10_distinct_homes_witness :
    ∃ s,
      initCity
          { width := 2, height := 2, initialTaxis := 0, initialResidents := 2,
            ticksPerDay := 5 }
          [0, 0, 1, 1] = .ok s ∧
        (residentsOf s).Pairwise (fun a b => a.pos ≠ b.pos) := by
  cases hinit :
      initCity
        { width := 2, height := 2, initialTaxis := 0, initialResidents := 2,
          ticksPerDay := 5 }
        [0, 0, 1, 1] with
  | error e =>
    have hok :
        (initCity
          { width := 2, height := 2, initialTaxis := 0, initialResidents := 2,
            ticksPerDay := 5 }
          [0, 0, 1, 1]).isOk = true := by decide
    rw [hinit] at hok
    cases hok
  | ok s => exact ⟨s, rfl, (C10_distinct_homes _ _ _ hinit).1⟩

end CitySim
